import Mathlib

/-!
Shallow embedding of the North Sussex Judo training fee calculator
(`north_sussex_judo.py`).

Monetary amounts and weights are modelled as rationals: every constant of
the source (weekly fees 25/30/35, coaching rate 9.50, entry fee 22.00,
weight bounds 66..100) and every intermediate of the fee formula is a
multiple of 0.5 far below 2^53, so binary floating-point arithmetic on
them is exact and agrees with ℚ.  Python exceptions are modelled with
`Except String`, carrying the source's error messages.  Dictionary lookups
(`TRAINING_PLANS[...]`, `WEIGHT_CATEGORIES[...]`) are modelled with
`Option` (a missing key, Python `KeyError`, becomes `none`); dict
iteration order in Python is insertion order, so the dictionaries become
association lists in source order.
-/

deriving instance DecidableEq for Except

namespace NorthSussexJudo

/-- Details of one training plan: `{"sessions_per_week": ..., "weekly_fee": ...}`. -/
structure PlanDetails where
  sessions_per_week : Nat
  weekly_fee : ℚ
deriving DecidableEq, Repr

/-- `TrainingConfig.TRAINING_PLANS`, in source (insertion) order. -/
def TRAINING_PLANS : List (String × PlanDetails) :=
  [("Beginner", ⟨2, 25⟩), ("Intermediate", ⟨3, 30⟩), ("Elite", ⟨5, 35⟩)]

/-- `TrainingConfig.WEIGHT_CATEGORIES`, in source (insertion) order; the
bound `none` stands for the source's `float('inf')` on "Heavyweight". -/
def WEIGHT_CATEGORIES : List (String × Option ℚ) :=
  [("Flyweight", some 66), ("Lightweight", some 73), ("Light-Middleweight", some 81),
   ("Middleweight", some 90), ("Light-Heavyweight", some 100), ("Heavyweight", none)]

/-- `TrainingConfig.PRIVATE_COACHING_RATE = 9.50`. -/
def PRIVATE_COACHING_RATE : ℚ := 19 / 2

/-- `TrainingConfig.COMPETITION_ENTRY_FEE = 22.00`. -/
def COMPETITION_ENTRY_FEE : ℚ := 22

/-- `TrainingConfig.MAX_PRIVATE_COACHING_HOURS = 5`. -/
def MAX_PRIVATE_COACHING_HOURS : Int := 5

/-- `TrainingConfig.WEEKS_PER_MONTH = 4`. -/
def WEEKS_PER_MONTH : ℚ := 4

/-- Dictionary lookup `TrainingConfig.TRAINING_PLANS[p]` / membership test. -/
def lookupPlan (p : String) : Option PlanDetails :=
  (TRAINING_PLANS.find? (fun e => e.1 = p)).map (·.2)

/-- Dictionary lookup `TrainingConfig.WEIGHT_CATEGORIES[c]`. -/
def lookupCategoryBound (c : String) : Option (Option ℚ) :=
  (WEIGHT_CATEGORIES.find? (fun e => e.1 = c)).map (·.2)

/-- Python `str.strip()`: drop leading and trailing whitespace.  Defined
over the character list so it reduces definitionally (`String.trim` is
defined by well-founded recursion on byte positions and does not). -/
def pyStrip (s : String) : String :=
  ⟨(s.data.dropWhile Char.isWhitespace).rdropWhile Char.isWhitespace⟩

/-- Python `str.lower()`, used for the case-insensitive duplicate check. -/
def pyLower (s : String) : String :=
  ⟨s.data.map Char.toLower⟩

/-- A constructed `Athlete` object: the six instance attributes set by
`Athlete.__init__` after validation. -/
structure Athlete where
  name : String
  training_plan : String
  current_weight : ℚ
  competitions : Int
  private_coaching_hours : Int
  weight_category : String
deriving DecidableEq, Repr

/-- `Athlete._validate_name`: strip, reject empty. -/
def validate_name (name : String) : Except String String :=
  if pyStrip name = "" then .error "Athlete name cannot be empty" else .ok (pyStrip name)

/-- `Athlete._validate_training_plan`: reject unknown plan keys. -/
def validate_training_plan (plan : String) : Except String String :=
  if (lookupPlan plan).isNone then
    .error "Training plan must be one of: Beginner, Intermediate, Elite"
  else .ok plan

/-- `Athlete._validate_weight`: reject non-positive and over-200 weights. -/
def validate_weight (weight : ℚ) : Except String ℚ :=
  if weight ≤ 0 then .error "Weight must be greater than 0 kg"
  else if weight > 200 then .error "Weight value seems unrealistic"
  else .ok weight

/-- `Athlete._validate_competitions`: non-negative, no competitions on the
Beginner plan, at most 4 per month. -/
def validate_competitions (competitions : Int) (training_plan : String) : Except String Int :=
  if competitions < 0 then .error "Number of competitions cannot be negative"
  else if training_plan = "Beginner" ∧ competitions > 0 then
    .error "Beginner athletes cannot enter competitions"
  else if competitions > 4 then .error "Maximum 4 competitions per month allowed"
  else .ok competitions

/-- `Athlete._validate_coaching_hours`: non-negative, at most the maximum. -/
def validate_coaching_hours (hours : Int) : Except String Int :=
  if hours < 0 then .error "Private coaching hours cannot be negative"
  else if hours > MAX_PRIVATE_COACHING_HOURS then
    .error "Maximum 5 hours of private coaching per week"
  else .ok hours

/-- One step of the loop in `Athlete._determine_weight_category`: Python
`weight <= upper_limit`, where comparison with `float('inf')` (`none`) is
always true. -/
def boundLE (w : ℚ) : Option ℚ → Bool
  | none => true
  | some b => w ≤ b

/-- The loop of `Athlete._determine_weight_category` over the category
list, with the source's fallback `return "Heavyweight"`. -/
def weightCategoryScan (w : ℚ) : List (String × Option ℚ) → String
  | [] => "Heavyweight"
  | (category, upper_limit) :: rest =>
    if boundLE w upper_limit then category else weightCategoryScan w rest

/-- `Athlete._determine_weight_category` as a function of the weight. -/
def determine_weight_category (w : ℚ) : String :=
  weightCategoryScan w WEIGHT_CATEGORIES

/-- `Athlete.__init__`: the validation pipeline in source order; any
failure aborts construction.  As in the source, `_validate_competitions`
receives the raw `training_plan` argument. -/
def mkAthlete (name training_plan : String) (current_weight : ℚ)
    (competitions private_coaching_hours : Int) : Except String Athlete :=
  match validate_name name with
  | .error e => .error e
  | .ok n =>
    match validate_training_plan training_plan with
    | .error e => .error e
    | .ok p =>
      match validate_weight current_weight with
      | .error e => .error e
      | .ok w =>
        match validate_competitions competitions training_plan with
        | .error e => .error e
        | .ok c =>
          match validate_coaching_hours private_coaching_hours with
          | .error e => .error e
          | .ok h =>
            .ok { name := n, training_plan := p, current_weight := w, competitions := c,
                  private_coaching_hours := h,
                  weight_category := determine_weight_category w }

/-- The dictionary returned by `Athlete.calculate_monthly_fees`. -/
structure Fees where
  training_cost : ℚ
  coaching_cost : ℚ
  competition_cost : ℚ
  total_cost : ℚ
deriving DecidableEq, Repr

/-- `Athlete.calculate_monthly_fees`; `none` models the `KeyError` a
foreign `training_plan` string would raise at the dict lookup. -/
def calculate_monthly_fees (a : Athlete) : Option Fees :=
  match lookupPlan a.training_plan with
  | none => none
  | some pd =>
    let training_cost := pd.weekly_fee * WEEKS_PER_MONTH
    let coaching_cost := (a.private_coaching_hours : ℚ) * WEEKS_PER_MONTH * PRIVATE_COACHING_RATE
    let competition_cost := (a.competitions : ℚ) * COMPETITION_ENTRY_FEE
    some ⟨training_cost, coaching_cost, competition_cost,
          training_cost + coaching_cost + competition_cost⟩

/-- The four textual branches of `Athlete.get_weight_analysis`, as a
classification (the surrounding f-string rendering is presentation). -/
inductive WeightAnalysis where
  | unbounded
  | wellWithin
  | closeToLimit
  | overOrAtLimit
deriving DecidableEq, Repr

/-- `Athlete.get_weight_analysis`: look up the category bound (a missing
key, impossible for constructed athletes, is `none`), report "no upper
limit" for Heavyweight, otherwise branch on `category_limit -
current_weight`.  A `none` (infinite) bound on a non-Heavyweight category
does not occur in the fixed table; Python would compute `inf - w > 5`,
i.e. the well-within branch. -/
def get_weight_analysis (a : Athlete) : Option WeightAnalysis :=
  match lookupCategoryBound a.weight_category with
  | none => none
  | some b =>
    if a.weight_category = "Heavyweight" then some .unbounded
    else
      match b with
      | none => some .wellWithin
      | some category_limit =>
        let weight_difference := category_limit - a.current_weight
        if weight_difference > 5 then some .wellWithin
        else if weight_difference > 0 then some .closeToLimit
        else some .overOrAtLimit

/-- `validate_number_input` on an already-parsed numeric value (string →
float parsing is presentation; a parse failure raises before the range
checks). -/
def validate_number_input (value : ℚ) (field : String) (min_val max_val : ℚ) :
    Except String ℚ :=
  if value < min_val then .error (field ++ " must be at least the minimum")
  else if value > max_val then .error (field ++ " cannot exceed the maximum")
  else .ok value

/-- Python `int(...)` truncates toward zero; `register_athlete` applies it
only to values already checked non-negative (`min_val` 0), where
truncation coincides with the floor. -/
def pyInt (q : ℚ) : Int := ⌊q⌋

/-- `JudoManagementSystem.register_athlete`, the core control flow of the
`try` block: strip and require a name, reject case-insensitive duplicate
names, range-check weight (30–200), competitions (0–4) and coaching hours
(0–5), construct the `Athlete`, then append it to `self.athletes`. -/
def register_athlete (athletes : List Athlete) (raw_name training_plan : String)
    (weight_input competitions_input coaching_input : ℚ) :
    Except String (List Athlete) :=
  let name := pyStrip raw_name
  if name = "" then .error "Please enter the athlete name"
  else if athletes.any (fun a => pyLower a.name = pyLower name) then
    .error "An athlete with this name is already registered"
  else
    match validate_number_input weight_input "Weight" 30 200 with
    | .error e => .error e
    | .ok weight =>
      match validate_number_input competitions_input "Competitions" 0 4 with
      | .error e => .error e
      | .ok competitions =>
        match validate_number_input coaching_input "Private coaching hours" 0
            (MAX_PRIVATE_COACHING_HOURS : ℚ) with
        | .error e => .error e
        | .ok coaching_hours =>
          match mkAthlete name training_plan weight (pyInt competitions)
              (pyInt coaching_hours) with
          | .error e => .error e
          | .ok athlete => .ok (athletes ++ [athlete])

/-- The observable effect of one `register_athlete` button press on
`self.athletes`: on an exception the handler shows a dialog and the list
is untouched (the only mutation in the `try` block is the final append). -/
def register_step (athletes : List Athlete) (raw_name training_plan : String)
    (weight_input competitions_input coaching_input : ℚ) :
    List Athlete × Option String :=
  match register_athlete athletes raw_name training_plan weight_input
      competitions_input coaching_input with
  | .ok l => (l, none)
  | .error e => (athletes, some e)

/-- `JudoManagementSystem.remove_athlete`, the list update
`self.athletes = [a for a in self.athletes if a.name != athlete_name]`. -/
def remove_athlete (athletes : List Athlete) (athlete_name : String) : List Athlete :=
  athletes.filter (fun a => a.name != athlete_name)

/-- The numeric content of the facility summary section of
`generate_summary_report`. -/
structure SummaryReport where
  athlete_count : Nat
  total_revenue : ℚ
  average_fee : ℚ
deriving DecidableEq, Repr

/-- The total-cost accumulation of `generate_summary_report`; the `getD 0`
branch is the unreachable `KeyError` case (every listed athlete has a
validated plan). -/
def total_monthly_revenue (athletes : List Athlete) : ℚ :=
  athletes.foldl
    (fun acc a => acc + ((calculate_monthly_fees a).map Fees.total_cost).getD 0) 0

/-- `JudoManagementSystem.generate_summary_report`: on an empty athlete
list the source shows a "No Athletes" dialog and returns early (`none`),
never reaching the average-fee division; otherwise it computes the
summary, with `average_fee = total / len(self.athletes)`. -/
def generate_summary_report (athletes : List Athlete) : Option SummaryReport :=
  if athletes.isEmpty then none
  else
    let total := total_monthly_revenue athletes
    some ⟨athletes.length, total, total / (athletes.length : ℚ)⟩

/-- Did an `Except` computation succeed? -/
def isOk {ε α : Type} : Except ε α → Bool
  | .ok _ => true
  | .error _ => false

/-- The error (if any) raised by `Athlete.__init__` on the given inputs. -/
def constructionError (n p : String) (w : ℚ) (c h : Int) : Option String :=
  match mkAthlete n p w c h with
  | .ok _ => none
  | .error e => some e

/-- The error of the earliest failing check in the fixed order stated by
the specification: (1) trimmed name non-empty, (2) known plan, (3) `0 < w
≤ 200`, (4) competitions non-negative, then the Beginner restriction,
then the cap of 4, (5) `0 ≤ hours ≤ 5`. -/
def claimFirstError (n p : String) (w : ℚ) (c h : Int) : Option String :=
  if pyStrip n = "" then some "Athlete name cannot be empty"
  else if (lookupPlan p).isNone then
    some "Training plan must be one of: Beginner, Intermediate, Elite"
  else if w ≤ 0 then some "Weight must be greater than 0 kg"
  else if w > 200 then some "Weight value seems unrealistic"
  else if c < 0 then some "Number of competitions cannot be negative"
  else if p = "Beginner" ∧ c > 0 then some "Beginner athletes cannot enter competitions"
  else if c > 4 then some "Maximum 4 competitions per month allowed"
  else if h < 0 then some "Private coaching hours cannot be negative"
  else if h > 5 then some "Maximum 5 hours of private coaching per week"
  else none

/-- The specification's description of the weight-category lookup: the
first category in the ascending ordered list whose upper bound is `≥ w`
(the infinite last bound accepts everything). -/
def specFirstMatch (w : ℚ) : Option String :=
  (WEIGHT_CATEGORIES.find? (fun e => boundLE w e.2)).map (·.1)

/-- The registry invariant: no two records have case-insensitively equal
names. -/
def caseDistinct (l : List Athlete) : Prop :=
  l.Pairwise (fun a b => pyLower a.name ≠ pyLower b.name)

/-- Internal consistency of a constructed record, as stated by the
specification's data-model invariants. -/
def validRecord (a : Athlete) : Prop :=
  pyStrip a.name = a.name ∧ a.name ≠ "" ∧
  (lookupPlan a.training_plan).isSome = true ∧
  0 < a.current_weight ∧ a.current_weight ≤ 200 ∧
  0 ≤ a.competitions ∧ a.competitions ≤ 4 ∧
  (a.training_plan = "Beginner" → a.competitions = 0) ∧
  0 ≤ a.private_coaching_hours ∧
  a.private_coaching_hours ≤ MAX_PRIVATE_COACHING_HOURS ∧
  a.weight_category = determine_weight_category a.current_weight

lemma dropWhile_eq_self_of_prefix {α : Type} (p : α → Bool) {l t : List α}
    (h : (l ++ t).dropWhile p = l ++ t) : l.dropWhile p = l := by
  cases l with
  | nil => rfl
  | cons a r =>
    rw [List.cons_append, List.dropWhile_cons] at h
    rw [List.dropWhile_cons]
    split_ifs at h ⊢ with hpa
    · exfalso
      have hsub : ((r ++ t).dropWhile p).Sublist (r ++ t) :=
        (List.dropWhile_suffix p).sublist
      have := hsub.length_le
      rw [h] at this
      simp only [List.length_cons, List.length_append] at this
      omega
    · rfl

lemma pyStrip_idem (s : String) : pyStrip (pyStrip s) = pyStrip s := by
  unfold pyStrip
  obtain ⟨t, ht⟩ :=
    List.rdropWhile_prefix Char.isWhitespace (s.data.dropWhile Char.isWhitespace)
  have hA : ((s.data.dropWhile Char.isWhitespace).rdropWhile Char.isWhitespace).dropWhile
      Char.isWhitespace =
      (s.data.dropWhile Char.isWhitespace).rdropWhile Char.isWhitespace := by
    apply dropWhile_eq_self_of_prefix Char.isWhitespace (t := t)
    rw [ht]
    exact List.dropWhile_idempotent Char.isWhitespace s.data
  show (⟨_⟩ : String) = ⟨_⟩
  rw [hA, List.rdropWhile_idempotent]

lemma validate_name_ok_iff (n x : String) :
    validate_name n = .ok x ↔ pyStrip n ≠ "" ∧ x = pyStrip n := by
  unfold validate_name
  split <;> simp_all <;> tauto

lemma validate_training_plan_ok_iff (p x : String) :
    validate_training_plan p = .ok x ↔ (lookupPlan p).isSome = true ∧ x = p := by
  unfold validate_training_plan
  split <;> simp_all [Option.isNone_iff_eq_none, Option.isSome_iff_ne_none] <;> tauto

lemma validate_weight_ok_iff (w x : ℚ) :
    validate_weight w = .ok x ↔ 0 < w ∧ w ≤ 200 ∧ x = w := by
  unfold validate_weight
  split_ifs with h1 h2 <;> simp_all <;> first | linarith | tauto

lemma validate_competitions_ok_iff (c : Int) (p : String) (x : Int) :
    validate_competitions c p = .ok x ↔
      0 ≤ c ∧ ¬(p = "Beginner" ∧ 0 < c) ∧ c ≤ 4 ∧ x = c := by
  unfold validate_competitions
  split_ifs with h1 h2 h3 <;> simp_all <;> omega

lemma validate_coaching_hours_ok_iff (h x : Int) :
    validate_coaching_hours h = .ok x ↔ 0 ≤ h ∧ h ≤ 5 ∧ x = h := by
  unfold validate_coaching_hours MAX_PRIVATE_COACHING_HOURS
  split_ifs with h1 h2 <;> simp_all <;> omega

/-- Full inversion of the construction pipeline on success. -/
lemma mkAthlete_ok_iff (n p : String) (w : ℚ) (c h : Int) (a : Athlete) :
    mkAthlete n p w c h = .ok a ↔
      pyStrip n ≠ "" ∧ (lookupPlan p).isSome = true ∧ 0 < w ∧ w ≤ 200 ∧
      0 ≤ c ∧ ¬(p = "Beginner" ∧ 0 < c) ∧ c ≤ 4 ∧ 0 ≤ h ∧ h ≤ 5 ∧
      a = ⟨pyStrip n, p, w, c, h, determine_weight_category w⟩ := by
  unfold mkAthlete
  constructor
  · intro H
    cases h1 : validate_name n with
    | error e => rw [h1] at H; exact absurd H (by simp)
    | ok n1 =>
      rw [h1] at H
      cases h2 : validate_training_plan p with
      | error e => rw [h2] at H; exact absurd H (by simp)
      | ok p1 =>
        rw [h2] at H
        cases h3 : validate_weight w with
        | error e => rw [h3] at H; exact absurd H (by simp)
        | ok w1 =>
          rw [h3] at H
          cases h4 : validate_competitions c p with
          | error e => rw [h4] at H; exact absurd H (by simp)
          | ok c1 =>
            rw [h4] at H
            cases h5 : validate_coaching_hours h with
            | error e => rw [h5] at H; exact absurd H (by simp)
            | ok hh =>
              rw [h5] at H
              simp only [Except.ok.injEq] at H
              rw [validate_name_ok_iff] at h1
              rw [validate_training_plan_ok_iff] at h2
              rw [validate_weight_ok_iff] at h3
              rw [validate_competitions_ok_iff] at h4
              rw [validate_coaching_hours_ok_iff] at h5
              obtain ⟨hn, rfl⟩ := h1
              obtain ⟨hp, rfl⟩ := h2
              obtain ⟨hw1, hw2, rfl⟩ := h3
              obtain ⟨hc1, hc2, hc3, rfl⟩ := h4
              obtain ⟨hh1, hh2, rfl⟩ := h5
              exact ⟨hn, hp, hw1, hw2, hc1, hc2, hc3, hh1, hh2, H.symm⟩
  · rintro ⟨hn, hp, hw1, hw2, hc1, hc2, hc3, hh1, hh2, rfl⟩
    rw [show validate_name n = .ok (pyStrip n) from
      (validate_name_ok_iff n (pyStrip n)).mpr ⟨hn, rfl⟩]
    rw [show validate_training_plan p = .ok p from
      (validate_training_plan_ok_iff p p).mpr ⟨hp, rfl⟩]
    rw [show validate_weight w = .ok w from
      (validate_weight_ok_iff w w).mpr ⟨hw1, hw2, rfl⟩]
    rw [show validate_competitions c p = .ok c from
      (validate_competitions_ok_iff c p c).mpr ⟨hc1, hc2, hc3, rfl⟩]
    rw [show validate_coaching_hours h = .ok h from
      (validate_coaching_hours_ok_iff h h).mpr ⟨hh1, hh2, rfl⟩]

set_option maxHeartbeats 1000000 in
lemma constructionError_eq (n p : String) (w : ℚ) (c h : Int) :
    constructionError n p w c h = claimFirstError n p w c h := by
  unfold constructionError claimFirstError mkAthlete validate_name validate_training_plan
    validate_weight validate_competitions validate_coaching_hours MAX_PRIVATE_COACHING_HOURS
  split_ifs <;> simp_all

/-- Claim C1: for every validated athlete record, `calculate_monthly_fees`
succeeds and returns trainingCost = weekly fee × 4, coachingCost = hours ×
4 × 9.50, competitionCost = competitions × 22.00, and totalCost exactly
the sum of the three; the Intermediate athlete (75.0 kg, 2 competitions,
3 coaching hours) gets 120.00/114.00/44.00/278.00 and the Beginner with
zeros gets totalCost = trainingCost = 100.00. -/
theorem judo_C1_fee_formula :
    (∀ (n p : String) (w : ℚ) (c h : Int) (a : Athlete), mkAthlete n p w c h = .ok a →
      ∃ pd, lookupPlan a.training_plan = some pd ∧
        calculate_monthly_fees a = some
          ⟨pd.weekly_fee * 4, (a.private_coaching_hours : ℚ) * 4 * (19/2),
           (a.competitions : ℚ) * 22,
           pd.weekly_fee * 4 + (a.private_coaching_hours : ℚ) * 4 * (19/2) +
             (a.competitions : ℚ) * 22⟩) ∧
    (∃ a, mkAthlete "J" "Intermediate" 75 2 3 = .ok a ∧
      calculate_monthly_fees a = some ⟨120, 114, 44, 278⟩) ∧
    (∃ a, mkAthlete "B" "Beginner" 75 0 0 = .ok a ∧
      ∃ f, calculate_monthly_fees a = some f ∧ f.total_cost = 100 ∧ f.training_cost = 100) := by
  refine ⟨?_, ?_, ?_⟩
  · intro n p w c h a H
    rw [mkAthlete_ok_iff] at H
    obtain ⟨hn, hp, hw1, hw2, hc1, hc2, hc3, hh1, hh2, rfl⟩ := H
    rw [Option.isSome_iff_exists] at hp
    obtain ⟨pd, hpd⟩ := hp
    refine ⟨pd, hpd, ?_⟩
    simp [calculate_monthly_fees, hpd, WEEKS_PER_MONTH, PRIVATE_COACHING_RATE,
      COMPETITION_ENTRY_FEE]
  · refine ⟨⟨"J", "Intermediate", 75, 2, 3, "Light-Middleweight"⟩, by rfl, ?_⟩
    norm_num [calculate_monthly_fees,
      show lookupPlan "Intermediate" = some ⟨3, 30⟩ from rfl,
      WEEKS_PER_MONTH, PRIVATE_COACHING_RATE, COMPETITION_ENTRY_FEE]
  · refine ⟨⟨"B", "Beginner", 75, 0, 0, "Light-Middleweight"⟩, by rfl,
      ⟨100, 0, 0, 100⟩, ?_, rfl, rfl⟩
    norm_num [calculate_monthly_fees,
      show lookupPlan "Beginner" = some ⟨2, 25⟩ from rfl,
      WEEKS_PER_MONTH, PRIVATE_COACHING_RATE, COMPETITION_ENTRY_FEE]

/-- Witness for C1 at the Intermediate athlete of the claim. -/
theorem judo_C1_witness :
    ∃ pd, lookupPlan "Intermediate" = some pd ∧
      calculate_monthly_fees ⟨"J", "Intermediate", 75, 2, 3, "Light-Middleweight"⟩ = some
        ⟨pd.weekly_fee * 4, (3 : ℚ) * 4 * (19/2), (2 : ℚ) * 22,
         pd.weekly_fee * 4 + (3 : ℚ) * 4 * (19/2) + (2 : ℚ) * 22⟩ :=
  judo_C1_fee_formula.1 "J" "Intermediate" 75 2 3
    ⟨"J", "Intermediate", 75, 2, 3, "Light-Middleweight"⟩ (by rfl)

/-- Claim C2: construction fails iff some validation check fails, and the
reported error is that of the earliest failing check in the fixed order
(name, plan, weight, competitions: negative / Beginner restriction / cap,
coaching hours); in particular a Beginner input with more than 4
competitions fails with the Beginner-restriction error, not the
too-many-competitions error. -/
theorem judo_C2_validation_order :
    (∀ (n p : String) (w : ℚ) (c h : Int),
      constructionError n p w c h = claimFirstError n p w c h) ∧
    (∀ (n : String) (w : ℚ) (c h : Int), pyStrip n ≠ "" → 0 < w → w ≤ 200 → 4 < c →
      mkAthlete n "Beginner" w c h = .error "Beginner athletes cannot enter competitions") := by
  constructor
  · exact constructionError_eq
  · intro n w c h hn hw1 hw2 hc
    have heq := constructionError_eq n "Beginner" w c h
    have hcf : claimFirstError n "Beginner" w c h =
        some "Beginner athletes cannot enter competitions" := by
      unfold claimFirstError
      rw [if_neg hn]
      rw [if_neg (by decide : ¬((lookupPlan "Beginner").isNone = true))]
      rw [if_neg (not_le.mpr hw1)]
      rw [if_neg (not_lt.mpr hw2)]
      rw [if_neg (by omega : ¬(c < 0))]
      rw [if_pos ⟨rfl, by omega⟩]
    rw [hcf] at heq
    unfold constructionError at heq
    cases hm : mkAthlete n "Beginner" w c h with
    | ok a => rw [hm] at heq; simp at heq
    | error e => rw [hm] at heq; simp only [Option.some.injEq] at heq; rw [heq]

/-- Witness for C2: the order theorem applied at a concrete valid input,
and the Beginner particular case at competitions = 5. -/
theorem judo_C2_witness :
    constructionError "A" "Elite" 80 2 1 = claimFirstError "A" "Elite" 80 2 1 ∧
    mkAthlete "B" "Beginner" 75 5 0 = .error "Beginner athletes cannot enter competitions" :=
  ⟨judo_C2_validation_order.1 "A" "Elite" 80 2 1,
   judo_C2_validation_order.2 "B" 75 5 0 (by decide) (by norm_num) (by norm_num)
     (by norm_num)⟩

/-- Claim C3: for every weight `0 < w ≤ 200` the category lookup returns
exactly the first category of the ordered list whose upper bound is ≥ w
and never fails; 66.0 → Flyweight, 66.1 → Lightweight, 100.0 →
Light-Heavyweight, 100.1 → Heavyweight. -/
theorem judo_C3_weight_category :
    (∀ w : ℚ, 0 < w → w ≤ 200 → specFirstMatch w = some (determine_weight_category w)) ∧
    determine_weight_category 66 = "Flyweight" ∧
    determine_weight_category (661/10) = "Lightweight" ∧
    determine_weight_category 100 = "Light-Heavyweight" ∧
    determine_weight_category (1001/10) = "Heavyweight" := by
  refine ⟨?_, by decide, ?_, by decide, ?_⟩
  · intro w _ _
    unfold specFirstMatch determine_weight_category weightCategoryScan WEIGHT_CATEGORIES
    by_cases h1 : w ≤ 66 <;> by_cases h2 : w ≤ 73 <;>
      by_cases h3 : w ≤ 81 <;> by_cases h4 : w ≤ 90 <;> by_cases h5 : w ≤ 100 <;>
      simp [weightCategoryScan, List.find?, boundLE, h1, h2, h3, h4, h5]
  · norm_num [determine_weight_category, weightCategoryScan, WEIGHT_CATEGORIES, boundLE]
  · norm_num [determine_weight_category, weightCategoryScan, WEIGHT_CATEGORIES, boundLE]

/-- Witness for C3 at weight 75. -/
theorem judo_C3_witness :
    specFirstMatch 75 = some (determine_weight_category 75) :=
  judo_C3_weight_category.1 75 (by norm_num) (by norm_num)

/-- Claim C4: any Beginner input with competitions > 0 fails construction,
so every constructed Beginner record has zero competitions and zero
competition cost. -/
theorem judo_C4_beginner_invariant :
    (∀ (n : String) (w : ℚ) (c h : Int), 0 < c →
      isOk (mkAthlete n "Beginner" w c h) = false) ∧
    (∀ (n p : String) (w : ℚ) (c h : Int) (a : Athlete), mkAthlete n p w c h = .ok a →
      a.training_plan = "Beginner" →
      a.competitions = 0 ∧ ∃ f, calculate_monthly_fees a = some f ∧ f.competition_cost = 0) := by
  constructor
  · intro n w c h hc
    cases hm : mkAthlete n "Beginner" w c h with
    | error e => rfl
    | ok a =>
      rw [mkAthlete_ok_iff] at hm
      exact absurd ⟨rfl, hc⟩ hm.2.2.2.2.2.1
  · intro n p w c h a H hb
    rw [mkAthlete_ok_iff] at H
    obtain ⟨hn, hp, hw1, hw2, hc1, hc2, hc3, hh1, hh2, rfl⟩ := H
    replace hb : p = "Beginner" := hb
    have hc0 : c = 0 := by
      rcases lt_or_eq_of_le hc1 with hpos | hzero
      · exact absurd ⟨hb, hpos⟩ hc2
      · omega
    subst hb
    subst hc0
    refine ⟨rfl, ?_⟩
    unfold calculate_monthly_fees
    rw [show lookupPlan
        (Athlete.training_plan ⟨pyStrip n, "Beginner", w, 0, h, determine_weight_category w⟩) =
        some ⟨2, 25⟩ from rfl]
    exact ⟨_, rfl, by norm_num [COMPETITION_ENTRY_FEE]⟩

/-- Witness for C4: competitions = 1 on Beginner fails; the constructed
zero-competition Beginner record has competition cost 0. -/
theorem judo_C4_witness :
    isOk (mkAthlete "Y" "Beginner" 75 1 0) = false ∧
    ((⟨"L", "Beginner", 69, 0, 0, "Lightweight"⟩ : Athlete).competitions = 0 ∧
      ∃ f, calculate_monthly_fees ⟨"L", "Beginner", 69, 0, 0, "Lightweight"⟩ = some f ∧
        f.competition_cost = 0) :=
  ⟨judo_C4_beginner_invariant.1 "Y" 75 1 0 (by norm_num),
   judo_C4_beginner_invariant.2 "L" "Beginner" 69 0 0
     ⟨"L", "Beginner", 69, 0, 0, "Lightweight"⟩ (by rfl) rfl⟩

set_option maxHeartbeats 1000000 in
lemma determine_le_bound (w b : ℚ)
    (hb : lookupCategoryBound (determine_weight_category w) = some (some b)) : w ≤ b := by
  by_cases h1 : w ≤ 66 <;> by_cases h2 : w ≤ 73 <;> by_cases h3 : w ≤ 81 <;>
    by_cases h4 : w ≤ 90 <;> by_cases h5 : w ≤ 100 <;>
    simp only [determine_weight_category, weightCategoryScan, WEIGHT_CATEGORIES, boundLE,
      h1, h2, h3, h4, h5, decide_True, decide_False, if_true, if_false, ite_true,
      ite_false,
      show lookupCategoryBound "Flyweight" = some (some 66) from rfl,
      show lookupCategoryBound "Lightweight" = some (some 73) from rfl,
      show lookupCategoryBound "Light-Middleweight" = some (some 81) from rfl,
      show lookupCategoryBound "Middleweight" = some (some 90) from rfl,
      show lookupCategoryBound "Light-Heavyweight" = some (some 100) from rfl,
      show lookupCategoryBound "Heavyweight" = some none from rfl,
      Option.some.injEq, reduceCtorEq] at hb <;>
    subst hb <;> assumption

set_option maxHeartbeats 1000000 in
lemma lookup_determine_finite (w : ℚ) (h : determine_weight_category w ≠ "Heavyweight") :
    ∃ b : ℚ, lookupCategoryBound (determine_weight_category w) = some (some b) := by
  by_cases h1 : w ≤ 66 <;> by_cases h2 : w ≤ 73 <;> by_cases h3 : w ≤ 81 <;>
    by_cases h4 : w ≤ 90 <;> by_cases h5 : w ≤ 100 <;>
    simp only [determine_weight_category, weightCategoryScan, WEIGHT_CATEGORIES, boundLE,
      h1, h2, h3, h4, h5, decide_True, decide_False, if_true, if_false, ite_true,
      ite_false] at h ⊢ <;>
    first
    | exact absurd rfl h
    | exact ⟨66, rfl⟩
    | exact ⟨73, rfl⟩
    | exact ⟨81, rfl⟩
    | exact ⟨90, rfl⟩
    | exact ⟨100, rfl⟩

lemma get_weight_analysis_heavy (a : Athlete) (h : a.weight_category = "Heavyweight") :
    get_weight_analysis a = some .unbounded := by
  unfold get_weight_analysis
  rw [h]
  rw [show lookupCategoryBound "Heavyweight" = some none from rfl]
  simp

lemma get_weight_analysis_finite (a : Athlete) (b : ℚ)
    (hb : lookupCategoryBound a.weight_category = some (some b))
    (hne : a.weight_category ≠ "Heavyweight") :
    get_weight_analysis a = some
      (if 5 < b - a.current_weight then .wellWithin
       else if 0 < b - a.current_weight then .closeToLimit else .overOrAtLimit) := by
  unfold get_weight_analysis
  rw [hb]
  simp [hne]
  split_ifs <;> rfl

/-- Claim C6: for every validated record the weight analysis is: the top
unbounded (Heavyweight) category reports "no upper limit"; otherwise the
margin (bound − weight) is ≥ 0 by construction, margin > 5 reports
well-within, 0 < margin ≤ 5 reports close-to-limit, and margin = 0 falls
into the over/at-limit branch (no distinct at-limit case). -/
theorem judo_C6_weight_analysis :
    ∀ (n p : String) (w : ℚ) (c h : Int) (a : Athlete), mkAthlete n p w c h = .ok a →
      ∃ r, get_weight_analysis a = some r ∧
        (a.weight_category = "Heavyweight" → r = .unbounded) ∧
        (∀ b : ℚ, lookupCategoryBound a.weight_category = some (some b) →
          0 ≤ b - a.current_weight ∧
          (5 < b - a.current_weight → r = .wellWithin) ∧
          (0 < b - a.current_weight → b - a.current_weight ≤ 5 → r = .closeToLimit) ∧
          (b - a.current_weight = 0 → r = .overOrAtLimit)) := by
  intro n p w c h a H
  rw [mkAthlete_ok_iff] at H
  obtain ⟨hn, hp, hw1, hw2, hc1, hc2, hc3, hh1, hh2, rfl⟩ := H
  by_cases hH : determine_weight_category w = "Heavyweight"
  · refine ⟨.unbounded, get_weight_analysis_heavy _ hH, fun _ => rfl, ?_⟩
    intro b hb
    replace hb : lookupCategoryBound (determine_weight_category w) = some (some b) := hb
    rw [hH] at hb
    rw [show lookupCategoryBound "Heavyweight" = some none from rfl] at hb
    simp at hb
  · obtain ⟨b, hb⟩ := lookup_determine_finite w hH
    refine ⟨_, get_weight_analysis_finite _ b hb hH, fun hcontra => absurd hcontra hH, ?_⟩
    intro b' hb'
    replace hb' : lookupCategoryBound (determine_weight_category w) = some (some b') := hb'
    rw [hb] at hb'
    simp only [Option.some.injEq] at hb'
    subst hb'
    have hle : w ≤ b := determine_le_bound w b hb
    replace hle :
        (0 : ℚ) ≤ b - Athlete.current_weight
          ⟨pyStrip n, p, w, c, h, determine_weight_category w⟩ := by
      simpa using hle
    refine ⟨hle, ?_, ?_, ?_⟩
    · intro hgt
      rw [if_pos hgt]
    · intro hpos hle5
      rw [if_neg (by linarith), if_pos hpos]
    · intro hzero
      rw [if_neg (by linarith), if_neg (by linarith)]

/-- Witness for C6 at a constructed Flyweight athlete of weight 60 kg
(margin 6, well within the limit). -/
theorem judo_C6_witness :
    ∃ r, get_weight_analysis ⟨"F", "Elite", 60, 0, 0, "Flyweight"⟩ = some r ∧
      ((⟨"F", "Elite", 60, 0, 0, "Flyweight"⟩ : Athlete).weight_category = "Heavyweight" →
        r = .unbounded) ∧
      (∀ b : ℚ,
        lookupCategoryBound
            (⟨"F", "Elite", 60, 0, 0, "Flyweight"⟩ : Athlete).weight_category =
          some (some b) →
        0 ≤ b - (⟨"F", "Elite", 60, 0, 0, "Flyweight"⟩ : Athlete).current_weight ∧
        (5 < b - (⟨"F", "Elite", 60, 0, 0, "Flyweight"⟩ : Athlete).current_weight →
          r = .wellWithin) ∧
        (0 < b - (⟨"F", "Elite", 60, 0, 0, "Flyweight"⟩ : Athlete).current_weight →
          b - (⟨"F", "Elite", 60, 0, 0, "Flyweight"⟩ : Athlete).current_weight ≤ 5 →
          r = .closeToLimit) ∧
        (b - (⟨"F", "Elite", 60, 0, 0, "Flyweight"⟩ : Athlete).current_weight = 0 →
          r = .overOrAtLimit)) :=
  judo_C6_weight_analysis "F" "Elite" 60 0 0 ⟨"F", "Elite", 60, 0, 0, "Flyweight"⟩ (by rfl)

/-- Claim C7: rejected operations are atomic — a failed registration
leaves the athlete list exactly as it was, and a successfully constructed
record always satisfies every validation invariant (no partially
initialized record is observable). -/
theorem judo_C7_atomicity :
    (∀ (sys : List Athlete) (rn p : String) (wι cι hι : ℚ) (e : String),
      register_athlete sys rn p wι cι hι = .error e →
      register_step sys rn p wι cι hι = (sys, some e)) ∧
    (∀ (n p : String) (w : ℚ) (c h : Int) (a : Athlete),
      mkAthlete n p w c h = .ok a → validRecord a) := by
  constructor
  · intro sys rn p wι cι hι e he
    unfold register_step
    rw [he]
  · intro n p w c h a H
    rw [mkAthlete_ok_iff] at H
    obtain ⟨hn, hp, hw1, hw2, hc1, hc2, hc3, hh1, hh2, rfl⟩ := H
    refine ⟨pyStrip_idem n, hn, hp, hw1, hw2, hc1, hc3, ?_, hh1, hh2, rfl⟩
    intro hb
    rcases lt_or_eq_of_le hc1 with hpos | hzero
    · exact absurd ⟨hb, hpos⟩ hc2
    · exact hzero.symm

/-- Witness for C7: a registration rejected for an empty name leaves the
list unchanged; a concrete constructed record satisfies the invariants. -/
theorem judo_C7_witness :
    register_step [] "" "Elite" 50 0 0 = ([], some "Please enter the athlete name") ∧
    validRecord ⟨"A", "Elite", 75, 0, 0, "Light-Middleweight"⟩ :=
  ⟨judo_C7_atomicity.1 [] "" "Elite" 50 0 0 "Please enter the athlete name" (by rfl),
   judo_C7_atomicity.2 "A" "Elite" 75 0 0 ⟨"A", "Elite", 75, 0, 0, "Light-Middleweight"⟩
     (by rfl)⟩

/-- Claim C10: removal by name deletes exactly the records whose name
equals the given name (case-sensitively), keeps all other records in their
original relative order, and under the uniqueness invariant deletes at
most one record. -/
theorem judo_C10_removal :
    ∀ (l : List Athlete) (nm : String),
      (∀ a ∈ remove_athlete l nm, a.name ≠ nm) ∧
      (remove_athlete l nm).Sublist l ∧
      (∀ a ∈ l, a.name ≠ nm → a ∈ remove_athlete l nm) ∧
      (caseDistinct l → l.length ≤ (remove_athlete l nm).length + 1) := by
  intro l nm
  refine ⟨?_, ?_, ?_, ?_⟩
  · intro a ha
    unfold remove_athlete at ha
    rw [List.mem_filter] at ha
    simpa using ha.2
  · exact List.filter_sublist l
  · intro a ha hne
    unfold remove_athlete
    rw [List.mem_filter]
    exact ⟨ha, by simpa using hne⟩
  · intro hcd
    unfold caseDistinct at hcd
    induction hcd with
    | nil => simp [remove_athlete]
    | @cons a t hhead htail ih =>
      unfold remove_athlete at ih ⊢
      rw [List.filter_cons]
      by_cases hdec : a.name = nm
      · have hbne : (a.name != nm) = false := by simp [hdec]
        rw [hbne]
        simp only [Bool.false_eq_true, if_false]
        have hself : t.filter (fun x => x.name != nm) = t := by
          rw [List.filter_eq_self]
          intro b hb
          simp only [bne_iff_ne, ne_eq, decide_eq_true_eq]
          intro hbnm
          exact hhead b hb (by rw [hdec, hbnm])
        rw [hself]
        simp
      · have hbne : (a.name != nm) = true := by simp [hdec]
        rw [hbne]
        simp only [if_true]
        simpa using ih

/-- Witness for C10: removing "Bob" from the singleton list deletes at
most one record. -/
theorem judo_C10_witness :
    [(⟨"Bob", "Elite", 75, 0, 0, "Light-Middleweight"⟩ : Athlete)].length ≤
      (remove_athlete [⟨"Bob", "Elite", 75, 0, 0, "Light-Middleweight"⟩] "Bob").length + 1 :=
  (judo_C10_removal [⟨"Bob", "Elite", 75, 0, 0, "Light-Middleweight"⟩] "Bob").2.2.2
    (by simp [caseDistinct])

/-- Counterexample to claim C8: on an empty athlete collection,
`generate_summary_report` returns early (the source shows a "No Athletes"
dialog and exits the handler before any arithmetic), so the average-fee
division with count = 0 is never reached. -/
theorem judo_C8_empty_summary_cex :
    generate_summary_report ([] : List Athlete) = none := rfl

/-- Claim C8 (amended): on an empty collection the summary entry point
returns early and never reaches the average-fee division; the division
`averageFee = totalRevenue / count` is computed only for a non-empty
collection. -/
theorem judo_C8_empty_summary :
    generate_summary_report ([] : List Athlete) = none ∧
    ∀ l : List Athlete, l ≠ [] →
      generate_summary_report l =
        some ⟨l.length, total_monthly_revenue l,
              total_monthly_revenue l / (l.length : ℚ)⟩ := by
  refine ⟨rfl, ?_⟩
  intro l hl
  unfold generate_summary_report
  rw [if_neg (by simpa [List.isEmpty_iff] using hl)]

/-- Witness for C8 (amended) at a one-element collection. -/
theorem judo_C8_witness :
    generate_summary_report [⟨"A", "Elite", 75, 0, 0, "Light-Middleweight"⟩] =
      some ⟨1, total_monthly_revenue [⟨"A", "Elite", 75, 0, 0, "Light-Middleweight"⟩],
            total_monthly_revenue [⟨"A", "Elite", 75, 0, 0, "Light-Middleweight"⟩] / (1 : ℚ)⟩ :=
  judo_C8_empty_summary.2 [⟨"A", "Elite", 75, 0, 0, "Light-Middleweight"⟩] (by simp)

/-- Claim C9: the registration entry point enforces the stricter lower
weight bound 30 — every parsed weight with 0 < w < 30 is rejected with the
weight-minimum error and the list is unchanged — while direct `Athlete`
construction accepts every weight in (0, 200] when the other fields are
valid. -/
theorem judo_C9_entry_weight_bound :
    (∀ (sys : List Athlete) (rn p : String) (wι cι hι : ℚ),
      pyStrip rn ≠ "" →
      (¬ ∃ a ∈ sys, pyLower a.name = pyLower (pyStrip rn)) →
      0 < wι → wι < 30 →
      register_step sys rn p wι cι hι = (sys, some "Weight must be at least the minimum")) ∧
    (∀ (n p : String) (w : ℚ) (c h : Int),
      pyStrip n ≠ "" → (lookupPlan p).isSome = true → 0 ≤ c → c ≤ 4 →
      ¬(p = "Beginner" ∧ 0 < c) → 0 ≤ h → h ≤ 5 → 0 < w → w ≤ 200 →
      isOk (mkAthlete n p w c h) = true) := by
  constructor
  · intro sys rn p wι cι hι hn hdup hw0 hw30
    have hany : (sys.any fun a => pyLower a.name = pyLower (pyStrip rn)) = false := by
      rw [List.any_eq_false]
      intro a ha
      simp only [decide_eq_true_eq]
      exact fun hEq => hdup ⟨a, ha, hEq⟩
    have hweight : validate_number_input wι "Weight" 30 200 =
        .error "Weight must be at least the minimum" := by
      unfold validate_number_input
      rw [if_pos hw30]
      rfl
    unfold register_step register_athlete
    simp only [hany, hweight, if_neg hn, Bool.false_eq_true, if_false]
  · intro n p w c h hn hp hc1 hc3 hc2 hh1 hh2 hw1 hw2
    have hok : mkAthlete n p w c h =
        .ok ⟨pyStrip n, p, w, c, h, determine_weight_category w⟩ :=
      (mkAthlete_ok_iff n p w c h _).mpr
        ⟨hn, hp, hw1, hw2, hc1, (by tauto), hc3, hh1, hh2, rfl⟩
    rw [hok]
    rfl

/-- Witness for C9: weight 20 is rejected at registration with the
weight-minimum error, while direct construction accepts weight 20. -/
theorem judo_C9_witness :
    register_step [] "A" "Elite" 20 0 0 =
      ([], some "Weight must be at least the minimum") ∧
    isOk (mkAthlete "A" "Elite" 20 0 0) = true :=
  ⟨judo_C9_entry_weight_bound.1 [] "A" "Elite" 20 0 0 (by decide) (by simp)
     (by norm_num) (by norm_num),
   judo_C9_entry_weight_bound.2 "A" "Elite" 20 0 0 (by decide) (by decide)
     (by norm_num) (by norm_num) (by simp) (by norm_num) (by norm_num)
     (by norm_num) (by norm_num)⟩

lemma validate_number_input_ok_iff (v : ℚ) (f : String) (mn mx x : ℚ) :
    validate_number_input v f mn mx = .ok x ↔ mn ≤ v ∧ v ≤ mx ∧ x = v := by
  unfold validate_number_input
  split_ifs with g1 g2
  · constructor
    · intro hh
      exact absurd hh (by simp)
    · rintro ⟨hmn, -, -⟩
      linarith
  · constructor
    · intro hh
      exact absurd hh (by simp)
    · rintro ⟨-, hmx, -⟩
      linarith
  · push_neg at g1 g2
    constructor
    · intro hh
      injection hh with hh
      exact ⟨g1, g2, hh.symm⟩
    · rintro ⟨-, -, rfl⟩
      rfl

lemma validate_number_input_error_ne_dup (v : ℚ) (f : String) (mn mx : ℚ) (e : String)
    (hf : f = "Weight" ∨ f = "Competitions" ∨ f = "Private coaching hours")
    (he : validate_number_input v f mn mx = .error e) :
    e ≠ "An athlete with this name is already registered" := by
  unfold validate_number_input at he
  rcases hf with rfl | rfl | rfl <;> split_ifs at he <;>
    first
      | (injection he with he; rw [← he]; decide)
      | exact absurd he (by simp)

lemma mkAthlete_error_ne_dup (n p : String) (w : ℚ) (c h : Int) (e : String)
    (hn : pyStrip n ≠ "") (he : mkAthlete n p w c h = .error e) :
    e ≠ "An athlete with this name is already registered" := by
  have h1 : some e = claimFirstError n p w c h := by
    have h2 := constructionError_eq n p w c h
    unfold constructionError at h2
    rw [he] at h2
    simpa using h2
  unfold claimFirstError at h1
  split_ifs at h1 <;>
    first
      | exact absurd (by assumption) hn
      | (rw [Option.some.injEq] at h1; rw [h1]; decide)
      | exact absurd h1 (by simp)

lemma register_athlete_ok_inv (sys : List Athlete) (rn p : String) (wι cι hι : ℚ)
    (l : List Athlete) (H : register_athlete sys rn p wι cι hι = .ok l) :
    ∃ a, mkAthlete (pyStrip rn) p wι (pyInt cι) (pyInt hι) = .ok a ∧ l = sys ++ [a] ∧
      (sys.any fun x => pyLower x.name = pyLower (pyStrip rn)) = false := by
  simp only [register_athlete] at H
  by_cases hn : pyStrip rn = ""
  · rw [if_pos hn] at H
    exact absurd H (by simp)
  · rw [if_neg hn] at H
    by_cases hany : (sys.any fun x => pyLower x.name = pyLower (pyStrip rn)) = true
    · simp only [hany, if_true] at H
      exact absurd H (by simp)
    · have hanyF : (sys.any fun x => pyLower x.name = pyLower (pyStrip rn)) = false := by
        simpa using hany
      simp only [hanyF, Bool.false_eq_true, if_false] at H
      cases hw : validate_number_input wι "Weight" 30 200 with
      | error e => simp [hw] at H
      | ok x =>
        have hx : x = wι := ((validate_number_input_ok_iff wι "Weight" 30 200 x).mp hw).2.2
        rw [hx] at hw
        simp only [hw] at H
        cases hc : validate_number_input cι "Competitions" 0 4 with
        | error e => simp [hc] at H
        | ok y =>
          have hy : y = cι :=
            ((validate_number_input_ok_iff cι "Competitions" 0 4 y).mp hc).2.2
          rw [hy] at hc
          simp only [hc] at H
          cases hh : validate_number_input hι "Private coaching hours" 0
              (MAX_PRIVATE_COACHING_HOURS : ℚ) with
          | error e => simp [hh] at H
          | ok z =>
            have hz : z = hι := ((validate_number_input_ok_iff hι "Private coaching hours" 0
              (MAX_PRIVATE_COACHING_HOURS : ℚ) z).mp hh).2.2
            rw [hz] at hh
            simp only [hh] at H
            cases hm : mkAthlete (pyStrip rn) p wι (pyInt cι) (pyInt hι) with
            | error e => simp [hm] at H
            | ok a =>
              simp only [hm, Except.ok.injEq] at H
              exact ⟨a, rfl, H.symm, hanyF⟩

/-- Claim C5: registration fails with the duplicate-name error iff some
registered record's name equals the new name case-insensitively; otherwise
a successful registration appends the record at the end; the registry
invariant (no two case-insensitively equal names) is preserved; and
registering a name again after removing the record with that name is not
blocked and succeeds for valid inputs. -/
theorem judo_C5_registration :
    (∀ (sys : List Athlete) (rn p : String) (wi ci hi : ℚ), pyStrip rn ≠ "" →
      (register_athlete sys rn p wi ci hi =
          .error "An athlete with this name is already registered" ↔
        ∃ a ∈ sys, pyLower a.name = pyLower (pyStrip rn))) ∧
    (∀ (sys : List Athlete) (rn p : String) (wi ci hi : ℚ) (l : List Athlete),
      register_athlete sys rn p wi ci hi = .ok l →
      ∃ a, l = sys ++ [a] ∧ a.name = pyStrip rn) ∧
    (∀ (sys : List Athlete) (rn p : String) (wi ci hi : ℚ) (l : List Athlete),
      caseDistinct sys → register_athlete sys rn p wi ci hi = .ok l → caseDistinct l) ∧
    (∀ (sys : List Athlete) (rn p : String) (wi ci hi : ℚ) (a₀ : Athlete),
      caseDistinct sys → a₀ ∈ sys → a₀.name = pyStrip rn → pyStrip rn ≠ "" →
      30 ≤ wi → wi ≤ 200 → 0 ≤ ci → ci ≤ 4 → 0 ≤ hi → hi ≤ 5 →
      (lookupPlan p).isSome = true → ¬(p = "Beginner" ∧ 0 < pyInt ci) →
      isOk (register_athlete (remove_athlete sys (pyStrip rn)) rn p wi ci hi) = true) := by
  refine ⟨?_, ?_, ?_, ?_⟩
  · intro sys rn p wi ci hi hn
    constructor
    · intro herr
      by_cases hany : (sys.any fun x => pyLower x.name = pyLower (pyStrip rn)) = true
      · rw [List.any_eq_true] at hany
        obtain ⟨a, ha, hdec⟩ := hany
        exact ⟨a, ha, of_decide_eq_true hdec⟩
      · exfalso
        have hanyF : (sys.any fun x => pyLower x.name = pyLower (pyStrip rn)) = false := by
          simpa using hany
        simp only [register_athlete, if_neg hn, hanyF, Bool.false_eq_true, if_false] at herr
        cases hw : validate_number_input wi "Weight" 30 200 with
        | error e =>
          simp only [hw] at herr
          injection herr with hE
          exact validate_number_input_error_ne_dup wi "Weight" 30 200 e (Or.inl rfl) hw hE
        | ok x =>
          have hx : x = wi := ((validate_number_input_ok_iff wi "Weight" 30 200 x).mp hw).2.2
          rw [hx] at hw
          simp only [hw] at herr
          cases hc : validate_number_input ci "Competitions" 0 4 with
          | error e =>
            simp only [hc] at herr
            injection herr with hE
            exact validate_number_input_error_ne_dup ci "Competitions" 0 4 e
              (Or.inr (Or.inl rfl)) hc hE
          | ok y =>
            have hy : y = ci :=
              ((validate_number_input_ok_iff ci "Competitions" 0 4 y).mp hc).2.2
            rw [hy] at hc
            simp only [hc] at herr
            cases hh : validate_number_input hi "Private coaching hours" 0
                (MAX_PRIVATE_COACHING_HOURS : ℚ) with
            | error e =>
              simp only [hh] at herr
              injection herr with hE
              exact validate_number_input_error_ne_dup hi "Private coaching hours" 0
                (MAX_PRIVATE_COACHING_HOURS : ℚ) e (Or.inr (Or.inr rfl)) hh hE
            | ok z =>
              have hz : z = hi := ((validate_number_input_ok_iff hi "Private coaching hours"
                0 (MAX_PRIVATE_COACHING_HOURS : ℚ) z).mp hh).2.2
              rw [hz] at hh
              simp only [hh] at herr
              cases hm : mkAthlete (pyStrip rn) p wi (pyInt ci) (pyInt hi) with
              | error e =>
                simp only [hm] at herr
                injection herr with hE
                exact mkAthlete_error_ne_dup (pyStrip rn) p wi (pyInt ci) (pyInt hi) e
                  (by rwa [pyStrip_idem]) hm hE
              | ok a =>
                simp only [hm] at herr
                exact absurd herr (by simp)
    · rintro ⟨a, ha, hEq⟩
      have hany : (sys.any fun x => pyLower x.name = pyLower (pyStrip rn)) = true :=
        List.any_eq_true.mpr ⟨a, ha, decide_eq_true hEq⟩
      simp [register_athlete, hn, hany]
  · intro sys rn p wi ci hi l H
    obtain ⟨a, hm, rfl, -⟩ := register_athlete_ok_inv sys rn p wi ci hi l H
    rw [mkAthlete_ok_iff] at hm
    obtain ⟨-, -, -, -, -, -, -, -, -, rfl⟩ := hm
    exact ⟨_, rfl, by simp [pyStrip_idem]⟩
  · intro sys rn p wi ci hi l hcd H
    obtain ⟨a, hm, rfl, hany⟩ := register_athlete_ok_inv sys rn p wi ci hi l H
    rw [mkAthlete_ok_iff] at hm
    obtain ⟨-, -, -, -, -, -, -, -, -, rfl⟩ := hm
    unfold caseDistinct at hcd ⊢
    rw [List.pairwise_append]
    refine ⟨hcd, by simp, ?_⟩
    intro x hx y hy
    rw [List.mem_singleton] at hy
    subst hy
    rw [List.any_eq_false] at hany
    have hx2 := hany x hx
    simp only [decide_eq_true_eq] at hx2
    simpa [pyStrip_idem] using hx2
  · intro sys rn p wi ci hi a₀ hcd ha₀ hname hn hw1 hw2 hc1 hc2 hh1 hh2 hp hbeg
    unfold caseDistinct at hcd
    have hany2 : ((remove_athlete sys (pyStrip rn)).any
        fun x => pyLower x.name = pyLower (pyStrip rn)) = false := by
      rw [List.any_eq_false]
      intro x hx
      unfold remove_athlete at hx
      rw [List.mem_filter] at hx
      obtain ⟨hxs, hxne⟩ := hx
      simp only [bne_iff_ne, ne_eq, decide_eq_true_eq] at hxne
      simp only [decide_eq_true_eq]
      intro hEq
      have hxa : x ≠ a₀ := fun hco => hxne (by rw [hco, hname])
      have hsymm : Symmetric (fun a b : Athlete => pyLower a.name ≠ pyLower b.name) :=
        fun _ _ hxy hq => hxy hq.symm
      exact List.Pairwise.forall hsymm hcd hxs ha₀ hxa (by rw [hEq, hname])
    have hwok : validate_number_input wi "Weight" 30 200 = .ok wi :=
      (validate_number_input_ok_iff wi "Weight" 30 200 wi).mpr ⟨hw1, hw2, rfl⟩
    have hcok : validate_number_input ci "Competitions" 0 4 = .ok ci :=
      (validate_number_input_ok_iff ci "Competitions" 0 4 ci).mpr ⟨hc1, hc2, rfl⟩
    have hhok : validate_number_input hi "Private coaching hours" 0
        (MAX_PRIVATE_COACHING_HOURS : ℚ) = .ok hi :=
      (validate_number_input_ok_iff hi "Private coaching hours" 0
        (MAX_PRIVATE_COACHING_HOURS : ℚ) hi).mpr
        ⟨hh1, by unfold MAX_PRIVATE_COACHING_HOURS; exact_mod_cast hh2, rfl⟩
    have hb_c1 : 0 ≤ pyInt ci := by
      unfold pyInt
      exact Int.le_floor.mpr (by exact_mod_cast hc1)
    have hb_c2 : pyInt ci ≤ 4 := by
      unfold pyInt
      have h1 : ⌊ci⌋ ≤ ⌊(4 : ℚ)⌋ := Int.floor_le_floor hc2
      have h2 : ⌊(4 : ℚ)⌋ = 4 := by norm_num
      omega
    have hb_h1 : 0 ≤ pyInt hi := by
      unfold pyInt
      exact Int.le_floor.mpr (by exact_mod_cast hh1)
    have hb_h2 : pyInt hi ≤ 5 := by
      unfold pyInt
      have h1 : ⌊hi⌋ ≤ ⌊(5 : ℚ)⌋ := Int.floor_le_floor hh2
      have h2 : ⌊(5 : ℚ)⌋ = 5 := by norm_num
      omega
    have hm : mkAthlete (pyStrip rn) p wi (pyInt ci) (pyInt hi) =
        .ok ⟨pyStrip (pyStrip rn), p, wi, pyInt ci, pyInt hi,
             determine_weight_category wi⟩ :=
      (mkAthlete_ok_iff (pyStrip rn) p wi (pyInt ci) (pyInt hi) _).mpr
        ⟨by rwa [pyStrip_idem], hp, by linarith, hw2, hb_c1, hbeg, hb_c2,
         hb_h1, hb_h2, rfl⟩
    simp [register_athlete, hn, hany2, hwok, hcok, hhok, hm, isOk]

/-- Witness for C5: with "Bob" registered, registering "bob" is reported
as a duplicate. -/
theorem judo_C5_witness :
    register_athlete [⟨"Bob", "Elite", 75, 0, 0, "Light-Middleweight"⟩] "bob" "Elite"
        75 0 0 =
      .error "An athlete with this name is already registered" ↔
    ∃ a ∈ [(⟨"Bob", "Elite", 75, 0, 0, "Light-Middleweight"⟩ : Athlete)],
      pyLower a.name = pyLower (pyStrip "bob") :=
  judo_C5_registration.1 [⟨"Bob", "Elite", 75, 0, 0, "Light-Middleweight"⟩] "bob" "Elite"
    75 0 0 (by decide)

end NorthSussexJudo
